import Mathlib

/-!
Verification development for the reselect-immutable-helpers library
(src/index.js).  The library is a thin composition layer over two
external collaborators described in the spec: the reselect memoizing
selector factory and the Immutable.js persistent-collection library.

Modelling choices:
* JavaScript values are `JSVal`.  Objects carry an allocation id
  (`ref : Nat`) so that reference identity is expressible: two object
  values are the same reference exactly when their ids (and hence, in a
  well-formed run, their whole representations) coincide.  A fresh id is
  drawn from an allocation counter that is threaded through every
  computation that can construct a new object.
* Fallible JavaScript evaluation is `Except JSError`; a thrown exception
  propagates as `Except.error`.
* The external reselect facilities (defaultMemoize with a configurable
  equality, createSelector, createStructuredSelector) are modelled from
  the spec, section 6: a memo cell of depth one holding the previous
  input list and previous result, recomputing exactly when an input
  fails the configured equality against the cached input, and updating
  the cached input on every completed call.  reselect's outermost memo
  layer (reference equality on the state argument) is omitted: with pure
  input selectors it is observationally redundant, because an identical
  state gives identical input values, which hit the inner memo cell.
* The external Immutable.js operations (Immutable.is, get, has, toJS)
  are modelled from the spec, section 6: deep structural equality on
  collection contents, get-with-default and membership uniformly for
  index-addressed and key-addressed containers, and deep conversion that
  allocates a fresh plain structure on every invocation.
-/

set_option autoImplicit false

namespace ReselectImmutable

/-- JavaScript primitive values (no NaN: numbers are modelled as `Int`). -/
inductive Prim where
  | undef
  | null
  | boolv (b : Bool)
  | numv (n : Int)
  | strv (s : String)
  deriving DecidableEq, Repr

/-- Structural content of an Immutable collection: an index-addressed
sequence or a key-addressed map with primitive entries.  `Immutable.is`
compares this content, ignoring object identity. -/
inductive ImmData where
  | ilist (xs : List Prim)
  | imap (entries : List (Prim × Prim))
  deriving DecidableEq, Repr

/-- A JavaScript runtime value.  Every object constructor carries the
allocation id `ref` that models its reference identity. -/
inductive JSVal where
  | prim (p : Prim)
  /-- An Immutable collection object: has a callable `toJS` method. -/
  | immColl (ref : Nat) (data : ImmData)
  /-- A plain structure (the result of `toJS`, or a pre-existing plain
  object or array): no `toJS` field at all. -/
  | plainData (ref : Nat) (data : ImmData)
  /-- A plain object mapping string keys to arbitrary values, as built
  by the structured selector of `createPropsSelector`. -/
  | record (ref : Nat) (entries : List (String × JSVal))
  /-- An object whose `toJS` field is present but not callable. -/
  | fakeToJS (ref : Nat)

/-- A thrown JavaScript exception. -/
inductive JSError where
  /-- A TypeError raised by the runtime, e.g. calling a missing method. -/
  | typeError (msg : String)
  /-- An exception raised by caller-supplied code. -/
  | raised (msg : String)
  deriving DecidableEq, Repr

/-- JavaScript truthiness. -/
def truthy : JSVal → Bool
  | .prim .undef => false
  | .prim .null => false
  | .prim (.boolv b) => b
  | .prim (.numv n) => n != 0
  | .prim (.strv s) => s != ""
  | _ => true

/-- Whether `typeof v` is the string "object" (true for `null` and for
every object; our universe has no function values). -/
def typeofObject : JSVal → Bool
  | .prim .null => true
  | .prim _ => false
  | _ => true

/-- The ES2015 default-parameter rule used by `(item = null) => ...`:
only `undefined` is replaced by the default. -/
def jsDefault : JSVal → JSVal
  | .prim .undef => .prim .null
  | v => v

/-- Models the JavaScript test `'toJS' in item` on an object. -/
def hasToJSField : JSVal → Bool
  | .immColl _ _ => true
  | .fakeToJS _ => true
  | _ => false

/-- Models the JavaScript test `typeof item.toJS === 'function'`. -/
def toJSIsCallable : JSVal → Bool
  | .immColl _ _ => true
  | _ => false

/-- Whether the value is an Immutable collection object. -/
def isImmColl : JSVal → Bool
  | .immColl _ _ => true
  | _ => false

/-- JavaScript strict equality `===`: value equality on primitives,
reference identity on objects. -/
def jsEq : JSVal → JSVal → Bool
  | .prim p, .prim q => p == q
  | .immColl r _, .immColl r2 _ => r == r2
  | .plainData r _, .plainData r2 _ => r == r2
  | .record r _, .record r2 _ => r == r2
  | .fakeToJS r, .fakeToJS r2 => r == r2
  | _, _ => false

/-- The external deep-equality predicate `Immutable.is`: two Immutable
collections are equal when their structural contents are equal even if
they are different references; any other pair falls back to `===`. -/
def immutableIs : JSVal → JSVal → Bool
  | .immColl _ d, .immColl _ d2 => d == d2
  | a, b => jsEq a b

/-- Pairwise `===` on argument lists, as reselect's shallow argument
comparison performs (false when the lengths differ). -/
def listJsEq : List JSVal → List JSVal → Bool
  | [], [] => true
  | a :: as, b :: bs => jsEq a b && listJsEq as bs
  | _, _ => false

/-- Models the method call `v.toJS()`.  On an Immutable collection this
deep-converts the contents into a freshly allocated plain structure; on
every other value the method is absent (or, for `fakeToJS`, present but
not a function) and the call throws a TypeError. -/
def callToJS : JSVal → Nat → Except JSError (JSVal × Nat)
  | .immColl _ d, alloc => .ok (.plainData alloc d, alloc + 1)
  | _, _ => .error (.typeError "toJS is not a function")

/-- One call of a reselect memo cell of depth one (spec section 6):
`cell` holds the previous input and previous result; when the new input
passes `eqf` against the cached input the cached result is returned
without recomputation, and in every completed call the cached input is
replaced by the new input.  When the combiner throws, the exception
propagates and the cell is left untouched. -/
def memoStep (eqf : JSVal → JSVal → Bool)
    (combine : JSVal → Nat → Except JSError (JSVal × Nat))
    (cell : Option (JSVal × JSVal)) (alloc : Nat) (input : JSVal) :
    Except JSError JSVal × Option (JSVal × JSVal) × Nat :=
  match cell with
  | some (prev, res) =>
    if eqf prev input then (.ok res, some (input, res), alloc)
    else
      match combine input alloc with
      | .ok (r, a) => (.ok r, some (input, r), a)
      | .error err => (.error err, some (prev, res), alloc)
  | none =>
    match combine input alloc with
    | .ok (r, a) => (.ok r, some (input, r), a)
    | .error err => (.error err, none, alloc)

/-- src/index.js `createImmutableComparingSelector` applied to one input
selector: the reselect factory configured with `defaultMemoize` and
`Immutable.is` as the equality on the input value.  A call first
evaluates the input selector (whose exception propagates untouched) and
then consults the memo cell. -/
def createImmutableComparingSelector {σ : Type} (sel : σ → Except JSError JSVal)
    (combine : JSVal → Nat → Except JSError (JSVal × Nat))
    (cell : Option (JSVal × JSVal)) (alloc : Nat) (s : σ) :
    Except JSError JSVal × Option (JSVal × JSVal) × Nat :=
  match sel s with
  | .error err => (.error err, cell, alloc)
  | .ok v => memoStep immutableIs combine cell alloc v

/-- The combiner of src/index.js `selectorToJS`:
`(raw) => { return raw ? raw.toJS() : null }`. -/
def selectorToJSCombiner (raw : JSVal) (alloc : Nat) : Except JSError (JSVal × Nat) :=
  if truthy raw then callToJS raw alloc else .ok (.prim .null, alloc)

/-- One call of the selector built by src/index.js `selectorToJS`,
with the memo cell and allocation counter passed explicitly. -/
def selectorToJS {σ : Type} (sel : σ → Except JSError JSVal)
    (cell : Option (JSVal × JSVal)) (alloc : Nat) (s : σ) :
    Except JSError JSVal × Option (JSVal × JSVal) × Nat :=
  createImmutableComparingSelector sel selectorToJSCombiner cell alloc s

/-- The combiner of src/index.js `ensureJSSelector`:
`(item = null) => { if (!item || typeof item !== 'object') return item;
if ('toJS' in item && typeof item.toJS === 'function') return item.toJS();
return item }`. -/
def ensureJSCombiner (item0 : JSVal) (alloc : Nat) : Except JSError (JSVal × Nat) :=
  let item := jsDefault item0
  if !truthy item || !typeofObject item then .ok (item, alloc)
  else if hasToJSField item && toJSIsCallable item then callToJS item alloc
  else .ok (item, alloc)

/-- One call of the selector built by src/index.js `ensureJSSelector`,
with the memo cell and allocation counter passed explicitly. -/
def ensureJSSelector {σ : Type} (sel : σ → Except JSError JSVal)
    (cell : Option (JSVal × JSVal)) (alloc : Nat) (s : σ) :
    Except JSError JSVal × Option (JSVal × JSVal) × Nat :=
  createImmutableComparingSelector sel ensureJSCombiner cell alloc s

/-- Evaluates, in declaration order, every entry of a props-selector
mapping through its `ensureJSSelector` wrapper, threading each entry's
own memo cell and the allocation counter; the first exception aborts the
remaining entries and propagates. -/
def runEntries {σ : Type} (entries : List (String × (σ → Except JSError JSVal)))
    (cells : List (Option (JSVal × JSVal))) (alloc : Nat) (s : σ) :
    Except JSError (List JSVal) × List (Option (JSVal × JSVal)) × Nat :=
  match entries with
  | [] => (.ok [], [], alloc)
  | e :: rest =>
    match ensureJSSelector e.2 (cells.headD none) alloc s with
    | (.ok v, c2, a2) =>
      match runEntries rest cells.tail a2 s with
      | (.ok vs, cs2, a3) => (.ok (v :: vs), c2 :: cs2, a3)
      | (.error err, cs2, a3) => (.error err, c2 :: cs2, a3)
    | (.error err, c2, a2) => (.error err, c2 :: cells.tail, a2)

/-- One call of the selector built by src/index.js `createPropsSelector`:
every entry is wrapped through `ensureJSSelector`, and the wrapped
results feed reselect's structured selector, whose own memo cell `smemo`
compares the result list pairwise by `===` and rebuilds the plain result
object (a fresh allocation mapping the same keys to the current wrapped
results) exactly when some entry's reference changed. -/
def createPropsSelector {σ : Type} (entries : List (String × (σ → Except JSError JSVal)))
    (cells : List (Option (JSVal × JSVal))) (smemo : Option (List JSVal × JSVal))
    (alloc : Nat) (s : σ) :
    Except JSError JSVal × List (Option (JSVal × JSVal)) ×
      Option (List JSVal × JSVal) × Nat :=
  match runEntries entries cells alloc s with
  | (.error err, cs, a) => (.error err, cs, smemo, a)
  | (.ok vs, cs, a) =>
    match smemo with
    | some (prev, res) =>
      if listJsEq prev vs then (.ok res, cs, some (vs, res), a)
      else
        (.ok (.record a ((entries.map Prod.fst).zip vs)), cs,
          some (vs, .record a ((entries.map Prod.fst).zip vs)), a + 1)
    | none =>
      (.ok (.record a ((entries.map Prod.fst).zip vs)), cs,
        some (vs, .record a ((entries.map Prod.fst).zip vs)), a + 1)

/-- Immutable's index normalization for sequences: a negative index
counts from the end; the result is `none` when out of range. -/
def resolveIndex (i : Int) (len : Nat) : Option Nat :=
  let j := if i < 0 then i + len else i
  if 0 ≤ j ∧ j < len then some j.toNat else none

/-- The external Immutable get-with-default (spec section 6): on a map,
the value at the first key that is `Immutable.is`-equal to the lookup
key; on a sequence, the element at the (normalized) integer index;
`dflt` when absent. -/
def immGet (d : ImmData) (k : JSVal) (dflt : JSVal) : JSVal :=
  match d with
  | .imap entries =>
    match entries.find? (fun e => immutableIs (.prim e.1) k) with
    | some e => .prim e.2
    | none => dflt
  | .ilist xs =>
    match k with
    | .prim (.numv i) =>
      match resolveIndex i xs.length with
      | some j =>
        match xs[j]? with
        | some p => .prim p
        | none => dflt
      | none => dflt
    | _ => dflt

/-- The external Immutable membership test (spec section 6). -/
def immHas (d : ImmData) (k : JSVal) : Bool :=
  match d with
  | .imap entries => entries.any (fun e => immutableIs (.prim e.1) k)
  | .ilist xs =>
    match k with
    | .prim (.numv i) => (resolveIndex i xs.length).isSome
    | _ => false

/-- Models the method call `obj.get(key, dflt)`: dispatches to the
Immutable operation when the receiver is a collection, and throws the
runtime's own TypeError when the receiver has no `get` method. -/
def jsGet (container : JSVal) (k : JSVal) (dflt : JSVal) : Except JSError JSVal :=
  match container with
  | .immColl _ d => .ok (immGet d k dflt)
  | _ => .error (.typeError "get is not a function")

/-- Models the method call `obj.has(key)`: dispatches to the Immutable
membership test when the receiver is a collection, and throws the
runtime's own TypeError otherwise. -/
def jsHas (container : JSVal) (k : JSVal) : Except JSError JSVal :=
  match container with
  | .immColl _ d => .ok (.prim (.boolv (immHas d k)))
  | _ => .error (.typeError "has is not a function")

/-- The `key` argument of the get/has builders: the source branches at
construction time on `typeof key === 'function'`, so the argument is
either a literal key or a key-producing selector. -/
inductive KeyArg (σ : Type) where
  | lit (k : Prim)
  | sel (f : σ → Except JSError JSVal)

/-- One call of the selector built by src/index.js `createGetSelector`:
with a callable key, a two-input selector evaluating the container and
the key selector and then looking the key up with the default; with a
literal key, a one-input selector performing the same lookup. -/
def createGetSelector {σ : Type} (selector : σ → Except JSError JSVal)
    (key : KeyArg σ) (defaultValue : JSVal) (s : σ) : Except JSError JSVal :=
  match key with
  | .sel keySel =>
    match selector s with
    | .error err => .error err
    | .ok container =>
      match keySel s with
      | .error err => .error err
      | .ok keyValue => jsGet container keyValue defaultValue
  | .lit k =>
    match selector s with
    | .error err => .error err
    | .ok container => jsGet container (.prim k) defaultValue

/-- One call of the selector built by src/index.js `invertSelector`:
the logical negation `!bool` of the wrapped selector's result. -/
def invertSelector {σ : Type} (selector : σ → Except JSError JSVal) (s : σ) :
    Except JSError JSVal :=
  match selector s with
  | .error err => .error err
  | .ok b => .ok (.prim (.boolv (!truthy b)))

/-- One call of the selector built by src/index.js `createHasSelector`:
identical key-resolution branching to `createGetSelector`, but a
membership test instead of a retrieval. -/
def createHasSelector {σ : Type} (selector : σ → Except JSError JSVal)
    (key : KeyArg σ) (s : σ) : Except JSError JSVal :=
  match key with
  | .sel keySel =>
    match selector s with
    | .error err => .error err
    | .ok container =>
      match keySel s with
      | .error err => .error err
      | .ok keyValue => jsHas container keyValue
  | .lit k =>
    match selector s with
    | .error err => .error err
    | .ok container => jsHas container (.prim k)

/-! ## Helper lemmas -/

/-- After any call of a memo cell that completes with `.ok r`, the cell
holds the current input and the returned result. -/
theorem memoStep_ok_cell {eqf : JSVal → JSVal → Bool}
    {combine : JSVal → Nat → Except JSError (JSVal × Nat)}
    {cell : Option (JSVal × JSVal)} {alloc : Nat} {input r : JSVal}
    {cell2 : Option (JSVal × JSVal)} {a2 : Nat}
    (h : memoStep eqf combine cell alloc input = (.ok r, cell2, a2)) :
    cell2 = some (input, r) := by
  unfold memoStep at h
  cases cell with
  | none =>
    cases h2 : combine input alloc with
    | ok pr =>
      rw [h2] at h
      simp at h
      rw [← h.2.1, h.1]
    | error err => rw [h2] at h; simp at h
  | some pr =>
    obtain ⟨prev, res⟩ := pr
    by_cases he : eqf prev input = true
    · simp [he] at h
      rw [← h.2.1, h.1]
    · simp [he] at h
      cases h2 : combine input alloc with
      | ok pr2 =>
        rw [h2] at h
        simp at h
        rw [← h.2.1, h.1]
      | error err => rw [h2] at h; simp at h

/-- Reference-stability of one `createImmutableComparingSelector` cell:
a completed call pins the cell to the current input and result, so an
immediately following call whose input value is `Immutable.is`-equal
returns the identical previous result. -/
theorem ccs_stable {σ : Type} {sel : σ → Except JSError JSVal}
    {combine : JSVal → Nat → Except JSError (JSVal × Nat)}
    {cell : Option (JSVal × JSVal)} {alloc : Nat} {sA sB : σ}
    {vA vB rA : JSVal} {cell1 : Option (JSVal × JSVal)} {a1 : Nat}
    (hA : sel sA = .ok vA) (hB : sel sB = .ok vB)
    (heq : immutableIs vA vB = true)
    (hcall : createImmutableComparingSelector sel combine cell alloc sA
      = (.ok rA, cell1, a1)) :
    (createImmutableComparingSelector sel combine cell1 a1 sB).1 = .ok rA := by
  have hc : cell1 = some (vA, rA) := by
    unfold createImmutableComparingSelector at hcall
    rw [hA] at hcall
    exact memoStep_ok_cell hcall
  unfold createImmutableComparingSelector
  rw [hB, hc]
  unfold memoStep
  simp [heq]

/-! ## Claims -/

/-- C1: for every memoized normalizing selector built by `selectorToJS`
or `ensureJSSelector`, and any two calls at `sA` then `sB`, if the
wrapped selector's result at `sA` is `Immutable.is`-equal to its result
at `sB`, then the two calls return the identical reference (in the model,
the very same `JSVal`, allocation id included), even when the two input
values are distinct object references. -/
theorem C1_reference_stability {σ : Type} (sel : σ → Except JSError JSVal)
    (cell : Option (JSVal × JSVal)) (alloc : Nat) (sA sB : σ)
    (vA vB rT rE : JSVal) (cellT cellE : Option (JSVal × JSVal)) (aT aE : Nat)
    (hA : sel sA = .ok vA) (hB : sel sB = .ok vB)
    (heq : immutableIs vA vB = true)
    (hT : selectorToJS sel cell alloc sA = (.ok rT, cellT, aT))
    (hE : ensureJSSelector sel cell alloc sA = (.ok rE, cellE, aE)) :
    (selectorToJS sel cellT aT sB).1 = .ok rT ∧
      (ensureJSSelector sel cellE aE sB).1 = .ok rE := by
  unfold selectorToJS at hT ⊢
  unfold ensureJSSelector at hE ⊢
  exact ⟨ccs_stable hA hB heq hT, ccs_stable hA hB heq hE⟩

/-- A concrete wrapped selector for the C1 witness: state `n` selects an
Immutable list whose object reference is `n` itself, so distinct states
give structurally equal but referentially distinct collections. -/
def C1data : ImmData := .ilist [.numv 1, .numv 2, .numv 3]

/-- A concrete wrapped selector for the C1 witness. -/
def C1sel : Nat → Except JSError JSVal := fun n => .ok (.immColl n C1data)

/-- C1 witness: after a first call at state 0, the call at state 1 (a
structurally equal collection under a different reference) returns the
plain object allocated by the first call, for both wrappers. -/
theorem C1_reference_stability_witness :
    (selectorToJS C1sel (some (.immColl 0 C1data, .plainData 0 C1data)) 1 1).1
        = .ok (.plainData 0 C1data) ∧
      (ensureJSSelector C1sel (some (.immColl 0 C1data, .plainData 0 C1data)) 1 1).1
        = .ok (.plainData 0 C1data) :=
  C1_reference_stability C1sel none 0 0 1 (.immColl 0 C1data) (.immColl 1 C1data)
    (.plainData 0 C1data) (.plainData 0 C1data)
    (some (.immColl 0 C1data, .plainData 0 C1data))
    (some (.immColl 0 C1data, .plainData 0 C1data)) 1 1
    rfl rfl (by decide) rfl rfl

/-- After any completed call of `createPropsSelector`, the structured
memo cell holds the entry value list of that call and its result. -/
theorem props_smemo_after {σ : Type}
    {entries : List (String × (σ → Except JSError JSVal))}
    {cells cells1 cellsA : List (Option (JSVal × JSVal))}
    {smemo smemoA : Option (List JSVal × JSVal)}
    {alloc a1 aA : Nat} {s : σ} {vsA : List JSVal} {rA : JSVal}
    (hA : runEntries entries cells alloc s = (.ok vsA, cells1, a1))
    (hcall : createPropsSelector entries cells smemo alloc s
      = (.ok rA, cellsA, smemoA, aA)) :
    smemoA = some (vsA, rA) := by
  unfold createPropsSelector at hcall
  rw [hA] at hcall
  cases smemo with
  | none =>
    simp at hcall
    rw [← hcall.2.2.1, hcall.1]
  | some pr =>
    obtain ⟨prev, res⟩ := pr
    by_cases he : listJsEq prev vsA = true
    · simp [he] at hcall
      rw [← hcall.2.2.1, hcall.1]
    · simp [he] at hcall
      rw [← hcall.2.2.1, hcall.1]

/-- C2: for every mapping of named selectors given to
`createPropsSelector`, a second call returns the identical result object
whenever every wrapped entry returns its previous normalized reference
(pairwise `===` on the entry value lists), and builds a new object
exactly when some entry's reference changed, in which case (and likewise
on a first call) the result is a fresh plain object mapping the same
keys to each wrapped selector's current normalized result. -/
theorem C2_props_composite_stability {σ : Type}
    (entries : List (String × (σ → Except JSError JSVal)))
    (cells : List (Option (JSVal × JSVal))) (smemo : Option (List JSVal × JSVal))
    (alloc : Nat) (sA sB : σ)
    (vsA : List JSVal) (cells1 : List (Option (JSVal × JSVal))) (a1 : Nat)
    (rA : JSVal) (cellsA : List (Option (JSVal × JSVal)))
    (smemoA : Option (List JSVal × JSVal)) (aA : Nat)
    (vsB : List JSVal) (cells2 : List (Option (JSVal × JSVal))) (a2 : Nat)
    (hA : runEntries entries cells alloc sA = (.ok vsA, cells1, a1))
    (hcallA : createPropsSelector entries cells smemo alloc sA
      = (.ok rA, cellsA, smemoA, aA))
    (hB : runEntries entries cellsA aA sB = (.ok vsB, cells2, a2)) :
    (listJsEq vsA vsB = true →
      (createPropsSelector entries cellsA smemoA aA sB).1 = .ok rA) ∧
    (listJsEq vsA vsB = false →
      createPropsSelector entries cellsA smemoA aA sB =
        (.ok (.record a2 ((entries.map Prod.fst).zip vsB)), cells2,
          some (vsB, .record a2 ((entries.map Prod.fst).zip vsB)), a2 + 1)) ∧
    (createPropsSelector entries cells none alloc sA =
      (.ok (.record a1 ((entries.map Prod.fst).zip vsA)), cells1,
        some (vsA, .record a1 ((entries.map Prod.fst).zip vsA)), a1 + 1)) := by
  have hs : smemoA = some (vsA, rA) := props_smemo_after hA hcallA
  refine ⟨?_, ?_, ?_⟩
  · intro he
    unfold createPropsSelector
    rw [hB, hs]
    simp [he]
  · intro he
    unfold createPropsSelector
    rw [hB, hs]
    simp [he]
  · unfold createPropsSelector
    rw [hA]

/-- Structural content used by the C2 witness. -/
def C2dataA : ImmData := .imap [(.strv "k", .strv "v")]

/-- First entry of the C2 witness mapping: state `n` selects an
Immutable map referenced by id `n`. -/
def C2selA : Nat → Except JSError JSVal := fun n => .ok (.immColl n C2dataA)

/-- Second entry of the C2 witness mapping: a constant primitive. -/
def C2selB : Nat → Except JSError JSVal := fun _ => .ok (.prim (.numv 2))

/-- The C2 witness mapping of named selectors. -/
def C2entries : List (String × (Nat → Except JSError JSVal)) :=
  [("a", C2selA), ("b", C2selB)]

/-- Entry value list produced by the first C2 witness call. -/
def C2vsA : List JSVal := [.plainData 0 C2dataA, .prim (.numv 2)]

/-- Per-entry memo cells after the first C2 witness call. -/
def C2cells1 : List (Option (JSVal × JSVal)) :=
  [some (.immColl 0 C2dataA, .plainData 0 C2dataA),
    some (.prim (.numv 2), .prim (.numv 2))]

/-- Result object of the first C2 witness call. -/
def C2rA : JSVal := .record 1 [("a", .plainData 0 C2dataA), ("b", .prim (.numv 2))]

/-- C2 witness: at state 1 (a structurally equal but referentially
distinct underlying collection) every wrapped entry returns its previous
reference, and the composed selector returns the very result object of
the first call. -/
theorem C2_props_composite_stability_witness :
    (createPropsSelector C2entries C2cells1 (some (C2vsA, C2rA)) 2 1).1 = .ok C2rA :=
  (C2_props_composite_stability C2entries [] none 0 0 1 C2vsA C2cells1 1 C2rA C2cells1
      (some (C2vsA, C2rA)) 2 C2vsA
      [some (.immColl 1 C2dataA, .plainData 0 C2dataA),
        some (.prim (.numv 2), .prim (.numv 2))] 2
      rfl rfl rfl).1 rfl

/-- The `ensureJSSelector` combiner returns a falsy value other than
`undefined` unchanged: the default-parameter binding does not fire, and
the first guard returns the value itself. -/
theorem ensureJSCombiner_falsy {v : JSVal} {alloc : Nat}
    (hf : truthy v = false) (hu : v ≠ .prim .undef) :
    ensureJSCombiner v alloc = .ok (v, alloc) := by
  cases v with
  | prim p =>
    cases p with
    | undef => exact absurd rfl hu
    | null => simp [ensureJSCombiner, jsDefault, truthy]
    | boolv b =>
      simp [truthy] at hf
      simp [ensureJSCombiner, jsDefault, truthy, hf]
    | numv n =>
      simp [truthy] at hf
      simp [ensureJSCombiner, jsDefault, truthy, typeofObject, hf]
    | strv s =>
      simp [truthy] at hf
      simp [ensureJSCombiner, jsDefault, truthy, typeofObject, hf]
  | immColl r d => simp [truthy] at hf
  | plainData r d => simp [truthy] at hf
  | record r es => simp [truthy] at hf
  | fakeToJS r => simp [truthy] at hf

/-- A wrapped selector returning the falsy primitive `false`, used to
refute the claimed canonicalization of every falsy value. -/
def C3sel : Nat → Except JSError JSVal := fun _ => .ok (.prim (.boolv false))

/-- C3 counterexample: a freshly built `ensureJSSelector` whose wrapped
selector produces the falsy value `false` returns that original falsy
value itself, which is not the canonical null sentinel — refuting the
claim that both wrappers always canonicalize falsy values to null. -/
theorem C3_absence_canonicalization_cex :
    (ensureJSSelector C3sel none 0 0).1 = .ok (.prim (.boolv false)) ∧
      JSVal.prim (.boolv false) ≠ JSVal.prim .null := by
  constructor
  · rfl
  · intro h
    simp at h

/-- C3 amended: `selectorToJS` maps every falsy selected value to the
canonical null; `ensureJSSelector` maps `undefined` (via its default
parameter) and `null` to the canonical null, and returns every other
falsy selected value unchanged. -/
theorem C3_absence_canonicalization_amended {σ : Type}
    (sel : σ → Except JSError JSVal) (alloc : Nat) (s : σ) (v : JSVal) :
    (sel s = .ok v → truthy v = false →
      (selectorToJS sel none alloc s).1 = .ok (.prim .null)) ∧
    (sel s = .ok (.prim .undef) →
      (ensureJSSelector sel none alloc s).1 = .ok (.prim .null)) ∧
    (sel s = .ok (.prim .null) →
      (ensureJSSelector sel none alloc s).1 = .ok (.prim .null)) ∧
    (sel s = .ok v → truthy v = false → v ≠ .prim .undef →
      (ensureJSSelector sel none alloc s).1 = .ok v) := by
  refine ⟨?_, ?_, ?_, ?_⟩
  · intro h hf
    unfold selectorToJS createImmutableComparingSelector
    rw [h]
    simp [memoStep, selectorToJSCombiner, hf]
  · intro h
    unfold ensureJSSelector createImmutableComparingSelector
    rw [h]
    simp [memoStep, ensureJSCombiner, jsDefault, truthy]
  · intro h
    unfold ensureJSSelector createImmutableComparingSelector
    rw [h]
    simp [memoStep, ensureJSCombiner, jsDefault, truthy]
  · intro h hf hu
    unfold ensureJSSelector createImmutableComparingSelector
    rw [h]
    simp [memoStep, ensureJSCombiner_falsy hf hu]

/-- A wrapped selector returning the falsy primitive `0`, used in the
C3 witness. -/
def C3selZero : Nat → Except JSError JSVal := fun _ => .ok (.prim (.numv 0))

/-- A wrapped selector returning `undefined`, used in the C3 witness. -/
def C3selUndef : Nat → Except JSError JSVal := fun _ => .ok (.prim .undef)

/-- C3 amended witness: `selectorToJS` canonicalizes the falsy value `0`
to null; `ensureJSSelector` canonicalizes `undefined` to null but
returns `0` unchanged. -/
theorem C3_absence_canonicalization_amended_witness :
    (selectorToJS C3selZero none 0 0).1 = .ok (.prim .null) ∧
      (ensureJSSelector C3selUndef none 0 0).1 = .ok (.prim .null) ∧
      (ensureJSSelector C3selZero none 0 0).1 = .ok (.prim (.numv 0)) :=
  ⟨(C3_absence_canonicalization_amended C3selZero 0 0 (.prim (.numv 0))).1
      rfl (by decide),
    (C3_absence_canonicalization_amended C3selUndef 0 0 (.prim .undef)).2.1 rfl,
    (C3_absence_canonicalization_amended C3selZero 0 0 (.prim (.numv 0))).2.2.2
      rfl (by decide) (by simp)⟩

/-- C4: for every truthy selected value without a callable `toJS`
capability — truthy primitives, plain structures, plain records, and
objects whose `toJS` field is present but not callable — the selector
built by `ensureJSSelector` returns the exact same reference (in the
model, the very same `JSVal`) it was given. -/
theorem C4_passthrough_idempotence {σ : Type} (sel : σ → Except JSError JSVal)
    (alloc : Nat) (s : σ) (v : JSVal)
    (h : sel s = .ok v) (ht : truthy v = true)
    (hcap : (hasToJSField v && toJSIsCallable v) = false) :
    (ensureJSSelector sel none alloc s).1 = .ok v := by
  unfold ensureJSSelector createImmutableComparingSelector
  rw [h]
  have hcomb : ensureJSCombiner v alloc = .ok (v, alloc) := by
    cases v with
    | prim p =>
      cases p with
      | undef => simp [truthy] at ht
      | null => simp [truthy] at ht
      | boolv b => simp [ensureJSCombiner, jsDefault, truthy, typeofObject]
      | numv n => simp [ensureJSCombiner, jsDefault, truthy, typeofObject]
      | strv st => simp [ensureJSCombiner, jsDefault, truthy, typeofObject]
    | immColl r d => simp [hasToJSField, toJSIsCallable] at hcap
    | plainData r d =>
      simp [ensureJSCombiner, jsDefault, truthy, typeofObject, hasToJSField]
    | record r es =>
      simp [ensureJSCombiner, jsDefault, truthy, typeofObject, hasToJSField]
    | fakeToJS r =>
      simp [ensureJSCombiner, jsDefault, truthy, typeofObject, hasToJSField,
        toJSIsCallable]
  simp [memoStep, hcomb]

/-- A wrapped selector returning an object whose `toJS` field is present
but not callable, used in the C4 witness. -/
def C4sel : Nat → Except JSError JSVal := fun _ => .ok (.fakeToJS 7)

/-- C4 witness: an object with a present-but-non-callable `toJS` field
is passed through by reference, exercising the edge case of the
capability check. -/
theorem C4_passthrough_idempotence_witness :
    (ensureJSSelector C4sel none 0 0).1 = .ok (.fakeToJS 7) :=
  C4_passthrough_idempotence C4sel 0 0 (.fakeToJS 7) rfl rfl rfl

/-- C5: `createGetSelector` with a literal key returns the container's
value at that key and the default when the key is absent, uniformly for
key-addressed maps (characterized through the first matching entry) and
index-addressed sequences (characterized through the normalized index);
with a callable key it evaluates the key selector per call and performs
the same lookup-with-default on the resolved key. -/
theorem C5_get_selector {σ : Type} (sel keySel : σ → Except JSError JSVal)
    (k : Prim) (dflt : JSVal) (s : σ) (r : Nat)
    (entriesM : List (Prim × Prim)) (xs : List Prim) (i : Int)
    (kv : JSVal) (d : ImmData) :
    (sel s = .ok (.immColl r (.imap entriesM)) → ∀ e0,
      entriesM.find? (fun e => immutableIs (.prim e.1) (.prim k)) = some e0 →
      createGetSelector sel (.lit k) dflt s = .ok (.prim e0.2)) ∧
    (sel s = .ok (.immColl r (.imap entriesM)) →
      entriesM.find? (fun e => immutableIs (.prim e.1) (.prim k)) = none →
      createGetSelector sel (.lit k) dflt s = .ok dflt) ∧
    (sel s = .ok (.immColl r (.ilist xs)) → ∀ j p,
      resolveIndex i xs.length = some j → xs[j]? = some p →
      createGetSelector sel (.lit (.numv i)) dflt s = .ok (.prim p)) ∧
    (sel s = .ok (.immColl r (.ilist xs)) → resolveIndex i xs.length = none →
      createGetSelector sel (.lit (.numv i)) dflt s = .ok dflt) ∧
    (sel s = .ok (.immColl r d) → keySel s = .ok kv →
      createGetSelector sel (.sel keySel) dflt s = .ok (immGet d kv dflt)) := by
  refine ⟨?_, ?_, ?_, ?_, ?_⟩
  · intro h e0 hfind
    simp [createGetSelector, h, jsGet, immGet, hfind]
  · intro h hfind
    simp [createGetSelector, h, jsGet, immGet, hfind]
  · intro h j p hres hidx
    simp [createGetSelector, h, jsGet, immGet, hres, hidx]
  · intro h hres
    simp [createGetSelector, h, jsGet, immGet, hres]
  · intro h hk
    simp [createGetSelector, h, hk, jsGet]

/-- The associative container of the spec's example scenario, used in
the C5 and C6 witnesses. -/
def C5map : ImmData :=
  .imap [(.strv "key", .strv "value"), (.strv "bystander", .strv "intervention")]

/-- The sequential container of the spec's example scenario, used in the
C5 and C6 witnesses. -/
def C5list : ImmData := .ilist [.strv "zeroth", .strv "first"]

/-- A selector producing the example associative container. -/
def C5mapSel : Nat → Except JSError JSVal := fun _ => .ok (.immColl 0 C5map)

/-- A selector producing the example sequential container. -/
def C5listSel : Nat → Except JSError JSVal := fun _ => .ok (.immColl 1 C5list)

/-- A key selector resolving the lookup key from the state, used in the
C5 and C6 witnesses. -/
def C5keySel : Nat → Except JSError JSVal :=
  fun n => .ok (.prim (.strv (if n = 0 then "key" else "missing")))

/-- C5 witness, following the spec's example scenario: a present map key
yields its value, an absent map key yields the supplied default, index 1
of the sequence yields its element, and a key selector resolves the key
per call. -/
theorem C5_get_selector_witness :
    createGetSelector C5mapSel (.lit (.strv "key")) (.prim .undef) 0
        = .ok (.prim (.strv "value")) ∧
      createGetSelector C5mapSel (.lit (.strv "missing")) (.prim (.strv "fallback")) 0
        = .ok (.prim (.strv "fallback")) ∧
      createGetSelector C5listSel (.lit (.numv 1)) (.prim .undef) 0
        = .ok (.prim (.strv "first")) ∧
      createGetSelector C5mapSel (.sel C5keySel) (.prim (.strv "fallback")) 1
        = .ok (.prim (.strv "fallback")) :=
  ⟨(C5_get_selector C5mapSel C5keySel (.strv "key") (.prim .undef) 0 0
      [(.strv "key", .strv "value"), (.strv "bystander", .strv "intervention")]
      [] 0 (.prim .undef) C5map).1 rfl (.strv "key", .strv "value") rfl,
    (C5_get_selector C5mapSel C5keySel (.strv "missing") (.prim (.strv "fallback")) 0 0
      [(.strv "key", .strv "value"), (.strv "bystander", .strv "intervention")]
      [] 0 (.prim .undef) C5map).2.1 rfl rfl,
    (C5_get_selector C5listSel C5keySel (.numv 1) (.prim .undef) 0 1
      [] [.strv "zeroth", .strv "first"] 1 (.prim .undef) C5list).2.2.1 rfl 1
      (.strv "first") rfl rfl,
    (C5_get_selector C5mapSel C5keySel (.strv "key") (.prim (.strv "fallback")) 1 0
      [] [] 0 (.prim (.strv "missing")) C5map).2.2.2.2 rfl rfl⟩

/-- C6: `createHasSelector` branches on the key exactly like
`createGetSelector` — literal key versus per-call key selector — but
performs a membership test, returning a boolean that is true exactly
when the key is present: for maps, when some entry's key matches; for
sequences, when the (possibly negative, end-relative) integer index is
in range. -/
theorem C6_has_selector {σ : Type} (sel keySel : σ → Except JSError JSVal)
    (k : Prim) (s : σ) (r : Nat) (d : ImmData)
    (entriesM : List (Prim × Prim)) (xs : List Prim) (i : Int) (kv : JSVal) :
    (sel s = .ok (.immColl r d) →
      createHasSelector sel (.lit k) s = .ok (.prim (.boolv (immHas d (.prim k))))) ∧
    (sel s = .ok (.immColl r d) → keySel s = .ok kv →
      createHasSelector sel (.sel keySel) s = .ok (.prim (.boolv (immHas d kv)))) ∧
    (immHas (.imap entriesM) (.prim k) = true ↔
      ∃ e ∈ entriesM, immutableIs (.prim e.1) (.prim k) = true) ∧
    (immHas (.ilist xs) (.prim (.numv i)) = true ↔
      (0 ≤ i ∧ i < (xs.length : Int)) ∨ (i < 0 ∧ 0 ≤ i + (xs.length : Int))) := by
  refine ⟨?_, ?_, ?_, ?_⟩
  · intro h
    simp [createHasSelector, h, jsHas]
  · intro h hk
    simp [createHasSelector, h, hk, jsHas]
  · simp [immHas, List.any_eq_true]
  · constructor
    · intro h
      simp [immHas, resolveIndex] at h
      by_cases hneg : i < 0
      · simp [hneg] at h
        right
        exact ⟨hneg, by omega⟩
      · simp [hneg] at h
        left
        exact ⟨by omega, by omega⟩
    · intro h
      simp [immHas, resolveIndex]
      rcases h with ⟨h1, h2⟩ | ⟨h1, h2⟩
      · have hneg : ¬ i < 0 := by omega
        simp [hneg]
        omega
      · simp [h1]
        omega

/-- C6 witness, following the spec's example scenario: on the sequence
of length two, membership at index 1 is true and at index 5 is false;
on the map, a present string key is true and the key selector is
resolved per call. -/
theorem C6_has_selector_witness :
    createHasSelector C5listSel (.lit (.numv 1)) 0 = .ok (.prim (.boolv true)) ∧
      createHasSelector C5listSel (.lit (.numv 5)) 0 = .ok (.prim (.boolv false)) ∧
      createHasSelector C5mapSel (.sel C5keySel) 0 = .ok (.prim (.boolv true)) ∧
      createHasSelector C5mapSel (.sel C5keySel) 1 = .ok (.prim (.boolv false)) :=
  ⟨(C6_has_selector C5listSel C5keySel (.numv 1) 0 1 C5list [] [] 0
      (.prim .undef)).1 rfl,
    (C6_has_selector C5listSel C5keySel (.numv 5) 0 1 C5list [] [] 0
      (.prim .undef)).1 rfl,
    (C6_has_selector C5mapSel C5keySel (.strv "key") 0 0 C5map [] [] 0
      (.prim (.strv "key"))).2.1 rfl rfl,
    (C6_has_selector C5mapSel C5keySel (.strv "key") 1 0 C5map [] [] 0
      (.prim (.strv "missing"))).2.1 rfl rfl⟩

/-- C7: `invertSelector` of a boolean-valued selector returns the
logical negation of the wrapped result, and applying it twice restores
the original boolean result. -/
theorem C7_invert_selector {σ : Type} (sel : σ → Except JSError JSVal)
    (s : σ) (b : Bool) (h : sel s = .ok (.prim (.boolv b))) :
    invertSelector sel s = .ok (.prim (.boolv (!b))) ∧
      invertSelector (fun t => invertSelector sel t) s = .ok (.prim (.boolv b)) := by
  constructor
  · simp [invertSelector, h, truthy]
  · simp [invertSelector, h, truthy]

/-- A boolean-valued selector for the C7 witness. -/
def C7sel : Nat → Except JSError JSVal := fun n => .ok (.prim (.boolv (n = 0)))

/-- C7 witness: inversion maps true to false at state 0 and false to
true at state 1, and double inversion restores the original booleans. -/
theorem C7_invert_selector_witness :
    invertSelector C7sel 0 = .ok (.prim (.boolv false)) ∧
      invertSelector (fun t => invertSelector C7sel t) 0
        = .ok (.prim (.boolv true)) ∧
      invertSelector C7sel 1 = .ok (.prim (.boolv true)) ∧
      invertSelector (fun t => invertSelector C7sel t) 1
        = .ok (.prim (.boolv false)) :=
  ⟨(C7_invert_selector C7sel 0 true (by simp [C7sel])).1,
    (C7_invert_selector C7sel 0 true (by simp [C7sel])).2,
    (C7_invert_selector C7sel 1 false (by simp [C7sel])).1,
    (C7_invert_selector C7sel 1 false (by simp [C7sel])).2⟩

/-- C8: every failure raised by a caller-supplied input selector, key
selector, or combiner propagates synchronously and unchanged through
every composed selector of the library, and calling a get/has builder's
selector on a container lacking the expected `get`/`has` operation
surfaces the underlying runtime TypeError, uncaught and untranslated. -/
theorem C8_error_propagation {σ : Type} (sel keySel : σ → Except JSError JSVal)
    (combine : JSVal → Nat → Except JSError (JSVal × Nat))
    (entriesRest : List (String × (σ → Except JSError JSVal))) (name : String)
    (cell : Option (JSVal × JSVal)) (cells : List (Option (JSVal × JSVal)))
    (smemo : Option (List JSVal × JSVal)) (alloc : Nat) (s : σ)
    (e : JSError) (v : JSVal) (k : Prim) (dflt : JSVal) (key : KeyArg σ) :
    (sel s = .error e → (selectorToJS sel cell alloc s).1 = .error e) ∧
    (sel s = .error e → (ensureJSSelector sel cell alloc s).1 = .error e) ∧
    (sel s = .ok v → combine v alloc = .error e →
      (createImmutableComparingSelector sel combine none alloc s).1 = .error e) ∧
    (sel s = .error e →
      (createPropsSelector ((name, sel) :: entriesRest) cells smemo alloc s).1
        = .error e) ∧
    (sel s = .error e → createGetSelector sel key dflt s = .error e) ∧
    (sel s = .ok v → keySel s = .error e →
      createGetSelector sel (.sel keySel) dflt s = .error e) ∧
    (sel s = .ok v → isImmColl v = false →
      createGetSelector sel (.lit k) dflt s
        = .error (.typeError "get is not a function")) ∧
    (sel s = .error e → createHasSelector sel key s = .error e) ∧
    (sel s = .ok v → keySel s = .error e →
      createHasSelector sel (.sel keySel) s = .error e) ∧
    (sel s = .ok v → isImmColl v = false →
      createHasSelector sel (.lit k) s
        = .error (.typeError "has is not a function")) ∧
    (sel s = .error e → invertSelector sel s = .error e) := by
  refine ⟨?_, ?_, ?_, ?_, ?_, ?_, ?_, ?_, ?_, ?_, ?_⟩
  · intro h
    simp [selectorToJS, createImmutableComparingSelector, h]
  · intro h
    simp [ensureJSSelector, createImmutableComparingSelector, h]
  · intro h hc
    simp [createImmutableComparingSelector, h, memoStep, hc]
  · intro h
    simp [createPropsSelector, runEntries, ensureJSSelector,
      createImmutableComparingSelector, h]
  · intro h
    cases key with
    | lit k2 => simp [createGetSelector, h]
    | sel f => simp [createGetSelector, h]
  · intro h hk
    simp [createGetSelector, h, hk]
  · intro h hv
    cases v with
    | prim p => simp [createGetSelector, h, jsGet]
    | immColl r d => simp [isImmColl] at hv
    | plainData r d => simp [createGetSelector, h, jsGet]
    | record r es => simp [createGetSelector, h, jsGet]
    | fakeToJS r => simp [createGetSelector, h, jsGet]
  · intro h
    cases key with
    | lit k2 => simp [createHasSelector, h]
    | sel f => simp [createHasSelector, h]
  · intro h hk
    simp [createHasSelector, h, hk]
  · intro h hv
    cases v with
    | prim p => simp [createHasSelector, h, jsHas]
    | immColl r d => simp [isImmColl] at hv
    | plainData r d => simp [createHasSelector, h, jsHas]
    | record r es => simp [createHasSelector, h, jsHas]
    | fakeToJS r => simp [createHasSelector, h, jsHas]
  · intro h
    simp [invertSelector, h]

/-- A caller-supplied selector that throws, used in the C8 witness. -/
def C8errSel : Nat → Except JSError JSVal := fun _ => .error (.raised "boom")

/-- A caller-supplied selector returning a plain structure (a value
with no `get`/`has` operations), used in the C8 witness. -/
def C8plainSel : Nat → Except JSError JSVal :=
  fun _ => .ok (.plainData 5 (.ilist []))

/-- A caller-supplied combiner that throws, used in the C8 witness. -/
def C8errCombine : JSVal → Nat → Except JSError (JSVal × Nat) :=
  fun _ _ => .error (.raised "combiner boom")

/-- C8 witness: a thrown input-selector failure surfaces unchanged from
the normalizing wrappers, the props composer, the get/has builders and
the inversion wrapper; a thrown combiner failure surfaces unchanged from
the comparing-selector factory; and a get on a plain structure surfaces
the runtime's own TypeError. -/
theorem C8_error_propagation_witness :
    (selectorToJS C8errSel none 0 0).1 = .error (.raised "boom") ∧
      (ensureJSSelector C8errSel none 0 0).1 = .error (.raised "boom") ∧
      (createImmutableComparingSelector C8plainSel C8errCombine none 0 0).1
        = .error (.raised "combiner boom") ∧
      (createPropsSelector [("a", C8errSel)] [] none 0 0).1
        = .error (.raised "boom") ∧
      createGetSelector C8errSel (.lit (.strv "key")) (.prim .undef) 0
        = .error (.raised "boom") ∧
      createGetSelector C8plainSel (.sel C8errSel) (.prim .undef) 0
        = .error (.raised "boom") ∧
      createGetSelector C8plainSel (.lit (.strv "key")) (.prim .undef) 0
        = .error (.typeError "get is not a function") ∧
      createHasSelector C8errSel (.lit (.strv "key")) 0 = .error (.raised "boom") ∧
      createHasSelector C8plainSel (.sel C8errSel) 0 = .error (.raised "boom") ∧
      createHasSelector C8plainSel (.lit (.strv "key")) 0
        = .error (.typeError "has is not a function") ∧
      invertSelector C8errSel 0 = .error (.raised "boom") :=
  ⟨(C8_error_propagation C8errSel C8errSel C8errCombine [] "a" none [] none 0 0
      (.raised "boom") (.prim .undef) (.strv "key") (.prim .undef)
      (.lit (.strv "key"))).1 rfl,
    (C8_error_propagation C8errSel C8errSel C8errCombine [] "a" none [] none 0 0
      (.raised "boom") (.prim .undef) (.strv "key") (.prim .undef)
      (.lit (.strv "key"))).2.1 rfl,
    (C8_error_propagation C8plainSel C8errSel C8errCombine [] "a" none [] none 0 0
      (.raised "combiner boom") (.plainData 5 (.ilist [])) (.strv "key")
      (.prim .undef) (.lit (.strv "key"))).2.2.1 rfl rfl,
    (C8_error_propagation C8errSel C8errSel C8errCombine [] "a" none [] none 0 0
      (.raised "boom") (.prim .undef) (.strv "key") (.prim .undef)
      (.lit (.strv "key"))).2.2.2.1 rfl,
    (C8_error_propagation C8errSel C8errSel C8errCombine [] "a" none [] none 0 0
      (.raised "boom") (.prim .undef) (.strv "key") (.prim .undef)
      (.lit (.strv "key"))).2.2.2.2.1 rfl,
    (C8_error_propagation C8plainSel C8errSel C8errCombine [] "a" none [] none 0 0
      (.raised "boom") (.plainData 5 (.ilist [])) (.strv "key") (.prim .undef)
      (.lit (.strv "key"))).2.2.2.2.2.1 rfl rfl,
    (C8_error_propagation C8plainSel C8errSel C8errCombine [] "a" none [] none 0 0
      (.raised "boom") (.plainData 5 (.ilist [])) (.strv "key") (.prim .undef)
      (.lit (.strv "key"))).2.2.2.2.2.2.1 rfl rfl,
    (C8_error_propagation C8errSel C8errSel C8errCombine [] "a" none [] none 0 0
      (.raised "boom") (.prim .undef) (.strv "key") (.prim .undef)
      (.lit (.strv "key"))).2.2.2.2.2.2.2.1 rfl,
    (C8_error_propagation C8plainSel C8errSel C8errCombine [] "a" none [] none 0 0
      (.raised "boom") (.plainData 5 (.ilist [])) (.strv "key") (.prim .undef)
      (.lit (.strv "key"))).2.2.2.2.2.2.2.2.1 rfl rfl,
    (C8_error_propagation C8plainSel C8errSel C8errCombine [] "a" none [] none 0 0
      (.raised "boom") (.plainData 5 (.ilist [])) (.strv "key") (.prim .undef)
      (.lit (.strv "key"))).2.2.2.2.2.2.2.2.2.1 rfl rfl,
    (C8_error_propagation C8errSel C8errSel C8errCombine [] "a" none [] none 0 0
      (.raised "boom") (.prim .undef) (.strv "key") (.prim .undef)
      (.lit (.strv "key"))).2.2.2.2.2.2.2.2.2.2 rfl⟩

/-- C9: `ensureJSSelector` maps an `undefined` wrapped-selector result
to null through its default-parameter binding, and returns every other
falsy value — `false`, `0`, the empty string, and explicit `null` —
exactly as given, so `undefined` is the only falsy input replaced by the
null sentinel; accordingly a `createPropsSelector` entry whose selector
produces `undefined` appears as null in the composed result object. -/
theorem C9_undefined_only_replacement {σ : Type}
    (sel : σ → Except JSError JSVal) (alloc : Nat) (s : σ) (v : JSVal)
    (name : String) :
    (sel s = .ok (.prim .undef) →
      (ensureJSSelector sel none alloc s).1 = .ok (.prim .null)) ∧
    (sel s = .ok v → truthy v = false → v ≠ .prim .undef →
      (ensureJSSelector sel none alloc s).1 = .ok v) ∧
    (sel s = .ok (.prim .undef) →
      (createPropsSelector [(name, sel)] [] none alloc s).1
        = .ok (.record alloc [(name, .prim .null)])) := by
  refine ⟨?_, ?_, ?_⟩
  · intro h
    unfold ensureJSSelector createImmutableComparingSelector
    rw [h]
    simp [memoStep, ensureJSCombiner, jsDefault, truthy]
  · intro h hf hu
    unfold ensureJSSelector createImmutableComparingSelector
    rw [h]
    simp [memoStep, ensureJSCombiner_falsy hf hu]
  · intro h
    simp [createPropsSelector, runEntries, ensureJSSelector,
      createImmutableComparingSelector, h, memoStep, ensureJSCombiner,
      jsDefault, truthy]

/-- A wrapped selector returning `undefined`, used in the C9 witness. -/
def C9selUndef : Nat → Except JSError JSVal := fun _ => .ok (.prim .undef)

/-- A wrapped selector returning the empty string, used in the C9
witness. -/
def C9selEmpty : Nat → Except JSError JSVal := fun _ => .ok (.prim (.strv ""))

/-- C9 witness: `undefined` becomes the null sentinel (also inside a
props-selector result object), while the falsy empty string is returned
exactly as given. -/
theorem C9_undefined_only_replacement_witness :
    (ensureJSSelector C9selUndef none 0 0).1 = .ok (.prim .null) ∧
      (ensureJSSelector C9selEmpty none 0 0).1 = .ok (.prim (.strv "")) ∧
      (createPropsSelector [("missing", C9selUndef)] [] none 0 0).1
        = .ok (.record 0 [("missing", .prim .null)]) :=
  ⟨(C9_undefined_only_replacement C9selUndef 0 0 (.prim .undef) "missing").1 rfl,
    (C9_undefined_only_replacement C9selEmpty 0 0 (.prim (.strv "")) "missing").2.1
      rfl (by decide) (by simp),
    (C9_undefined_only_replacement C9selUndef 0 0 (.prim .undef) "missing").2.2 rfl⟩

/-- C10: `selectorToJS` invokes `toJS` on every truthy wrapped result
without any capability check, so whenever the selected value is truthy
but not an Immutable collection — a plain structure, a record, an object
with a non-callable `toJS` field, or a truthy primitive — the built
selector throws the runtime TypeError instead of passing the value
through. -/
theorem C10_selectorToJS_throws {σ : Type} (sel : σ → Except JSError JSVal)
    (alloc : Nat) (s : σ) (v : JSVal)
    (h : sel s = .ok v) (ht : truthy v = true) (hc : isImmColl v = false) :
    (selectorToJS sel none alloc s).1
      = .error (.typeError "toJS is not a function") := by
  unfold selectorToJS createImmutableComparingSelector
  rw [h]
  have hcall : callToJS v alloc = .error (.typeError "toJS is not a function") := by
    cases v with
    | prim p => rfl
    | immColl r d => simp [isImmColl] at hc
    | plainData r d => rfl
    | record r es => rfl
    | fakeToJS r => rfl
  simp [memoStep, selectorToJSCombiner, ht, hcall]

/-- A wrapped selector returning a truthy plain structure without a
`toJS` method, used in the C10 witness. -/
def C10sel : Nat → Except JSError JSVal :=
  fun _ => .ok (.plainData 3 (.ilist [.numv 1]))

/-- C10 witness: a truthy plain structure makes the `selectorToJS`-built
selector throw a TypeError rather than pass the value through. -/
theorem C10_selectorToJS_throws_witness :
    (selectorToJS C10sel none 0 0).1
      = .error (.typeError "toJS is not a function") :=
  C10_selectorToJS_throws C10sel 0 0 (.plainData 3 (.ilist [.numv 1])) rfl rfl rfl

end ReselectImmutable
